import Mathlib

/-!
Verification of the Neewer GL1 Pro Home Assistant integration
(`custom_components/neewer_gl1_pro`): a shallow embedding of
`const.py`, `light.py` and `config_flow.py`, followed by theorems
about the protocol constants, the status-notification decoder, the
command-exchange session, the controller state updates, and the
manual-address configuration step.
-/

/-! ## Constants (`const.py`) -/

/-- Constant `STATUS_TAG = 0x02` (`const.py` line 17). -/
def STATUS_TAG : Nat := 0x02

/-- Constant `STATUS_ON = 0x01` (`const.py` line 18). -/
def STATUS_ON : Nat := 0x01

/-- Constant `STATUS_OFF = 0x02` (`const.py` line 19). -/
def STATUS_OFF : Nat := 0x02

/-- Constant `POWER_ON_COMMAND = bytes([0x78, 0x81, 0x01, 0x01, 0xFB])` (`const.py` line 12). -/
def POWER_ON_COMMAND : List Nat := [0x78, 0x81, 0x01, 0x01, 0xFB]

/-- Constant `POWER_OFF_COMMAND = bytes([0x78, 0x81, 0x01, 0x02, 0xFC])` (`const.py` line 13). -/
def POWER_OFF_COMMAND : List Nat := [0x78, 0x81, 0x01, 0x02, 0xFC]

/-! ## Notification handling (`light.py`, `on_notify` inside `_send_command`) -/

/-- The mutable state captured by the `on_notify` closure in `_send_command`
(`light.py` lines 93-94): the single-slot `result` list and the
`asyncio.Event` used as the wait gate. -/
structure NotifyState where
  result : Option Bool
  eventSet : Bool
deriving DecidableEq, Repr

/-- Embedding of `on_notify` (`light.py` lines 96-104): given the current
closure state and the raw notification bytes, return the updated state.
Mirrors the source exactly: when `len(data) >= 4 and data[1] == STATUS_TAG`,
the state byte `data[3]` is mapped through `STATUS_ON`/`STATUS_OFF` to update
`result[0]` (left unchanged for any other state byte), and `status_event.set()`
runs unconditionally inside that branch; otherwise nothing happens. -/
def on_notify (s : NotifyState) (data : List Nat) : NotifyState :=
  if 4 ≤ data.length ∧ data.getD 1 0 = STATUS_TAG then
    { result :=
        if data.getD 3 0 = STATUS_ON then some true
        else if data.getD 3 0 = STATUS_OFF then some false
        else s.result,
      eventSet := true }
  else
    s

/-- The pure decode implicit in `on_notify` (`light.py` lines 96-104):
the boolean that a notification records, when it records one.
`some true`/`some false` exactly when `on_notify` would overwrite
`result[0]` with that value; `none` when `result[0]` is left unchanged. -/
def decode_status (raw : List Nat) : Option Bool :=
  if 4 ≤ raw.length ∧ raw.getD 1 0 = STATUS_TAG then
    if raw.getD 3 0 = STATUS_ON then some true
    else if raw.getD 3 0 = STATUS_OFF then some false
    else none
  else
    none

/-- Folding `on_notify` over the notifications delivered (in order) to the
callback during one command's wait window in `_send_command`. -/
def process_notifications (s : NotifyState) (ds : List (List Nat)) : NotifyState :=
  ds.foldl on_notify s

/-! ## Connection strategy (`light.py`, `_connect`, lines 70-86) -/

/-- A device handle returned by the host's Bluetooth cache lookup
(`async_ble_device_from_address`). Only its identity matters here. -/
structure BLEDevice where
  id : Nat
deriving DecidableEq, Repr

/-- The transport acquired by `_connect`: either a connection established
through the cached device handle (`establish_connection` with
`BleakClientWithServiceCache`), or a direct `BleakClient(address)`
connection with no caching. These are the only two constructors: no other
strategy exists. -/
inductive Connection where
  | viaCache (d : BLEDevice) : Connection
  | direct (address : List Char) : Connection
deriving DecidableEq, Repr

/-- Embedding of `_connect` (`light.py` lines 70-86): look up the address
in the host's BLE cache; if a device handle comes back, connect through
the cached handle; otherwise connect directly by address. -/
def _connect (cache : Option BLEDevice) (address : List Char) : Connection :=
  match cache with
  | some d => Connection.viaCache d
  | none => Connection.direct address

/-! ## Command exchange (`light.py`, `_send_command`, lines 88-129) -/

/-- One command exchange's environment: whether each transport operation
succeeds (a `false` means the call raises `BleakError`), and the raw
notifications delivered to the `on_notify` callback during the wait
window, in arrival order. -/
structure Transport where
  connect_ok : Bool
  start_notify_ok : Bool
  write_ok : Bool
  notifications : List (List Nat)
  stop_notify_ok : Bool
  disconnect_ok : Bool
deriving DecidableEq, Repr

/-- The observable outcome of `_send_command`: the returned `result[0]`
(`some true` on, `some false` off, `none` no response) and how many times
`client.disconnect()` was invoked. -/
structure SendOutcome where
  result : Option Bool
  disconnect_count : Nat
deriving DecidableEq, Repr

/-- Embedding of `_send_command` (`light.py` lines 88-129), following its
control flow path by path:
* `_connect` raises: the outer `except BleakError` catches it before the
  inner `try/finally` is entered, so no disconnect; `result[0]` is still
  `None`.
* `start_notify` or `write_gatt_char` raises: the inner `finally` runs
  `disconnect` once, the outer `except` catches; `result[0]` is `None`.
* otherwise the bounded wait runs: the notifications are fed to
  `on_notify` in order (a `TimeoutError` from `wait_for` is caught and
  only logged); then `stop_notify` runs — whether it succeeds or raises,
  the `finally` runs `disconnect` once and `return result[0]` executes
  (likewise if `disconnect` itself raises, it was invoked once and the
  outer `except` catches).
The `command` bytes are written to the characteristic but do not influence
the outcome, which depends only on the delivered notifications. -/
def send_command (t : Transport) (_command : List Nat) : SendOutcome :=
  if t.connect_ok then
    if t.start_notify_ok then
      if t.write_ok then
        if t.stop_notify_ok then
          if t.disconnect_ok then
            { result := (process_notifications ⟨none, false⟩ t.notifications).result,
              disconnect_count := 1 }
          else
            { result := (process_notifications ⟨none, false⟩ t.notifications).result,
              disconnect_count := 1 }
        else
          if t.disconnect_ok then
            { result := (process_notifications ⟨none, false⟩ t.notifications).result,
              disconnect_count := 1 }
          else
            { result := (process_notifications ⟨none, false⟩ t.notifications).result,
              disconnect_count := 1 }
      else
        { result := none, disconnect_count := 1 }
    else
      { result := none, disconnect_count := 1 }
  else
    { result := none, disconnect_count := 0 }

/-! ## The light entity (`light.py`, `NeewerGL1ProLight`) -/

/-- The entity state relevant to the claims: the device address, the
derived `_attr_unique_id`, and `_attr_is_on`. (The hass handle, config
entry title and `DeviceInfo` stored by `__init__` are host-framework
glue with no bearing on these claims.) -/
structure NeewerGL1ProLight where
  address : List Char
  unique_id : List Char
  is_on : Bool
deriving DecidableEq, Repr

/-- Embedding of `NeewerGL1ProLight.__init__` (`light.py` lines 55-68):
`_attr_unique_id = address.replace(":", "_")` and `_attr_is_on = False`. -/
def initLight (address : List Char) : NeewerGL1ProLight :=
  { address := address
    unique_id := address.map (fun c => if c = ':' then '_' else c)
    is_on := false }

/-- Embedding of `async_turn_on` (`light.py` lines 131-135): send
`POWER_ON_COMMAND`; `_attr_is_on = status if status is not None else True`. -/
def async_turn_on (l : NeewerGL1ProLight) (t : Transport) : NeewerGL1ProLight :=
  match (send_command t POWER_ON_COMMAND).result with
  | some b => { l with is_on := b }
  | none => { l with is_on := true }

/-- Embedding of `async_turn_off` (`light.py` lines 137-141): send
`POWER_OFF_COMMAND`; `_attr_is_on = status if status is not None else False`. -/
def async_turn_off (l : NeewerGL1ProLight) (t : Transport) : NeewerGL1ProLight :=
  match (send_command t POWER_OFF_COMMAND).result with
  | some b => { l with is_on := b }
  | none => { l with is_on := false }

/-! ## Manual configuration step (`config_flow.py`, `async_step_manual`, lines 97-121) -/

/-- Python `str.strip()` on a character list: drop whitespace from both ends. -/
def py_strip (s : List Char) : List Char :=
  ((s.dropWhile Char.isWhitespace).reverse.dropWhile Char.isWhitespace).reverse

/-- Python `str.upper()` on a character list. -/
def py_upper (s : List Char) : List Char :=
  s.map Char.toUpper

/-- Embedding of the validation in `async_step_manual` (`config_flow.py`
lines 103-113): `address = user_input[CONF_ADDRESS].strip().upper()`; an
entry is created iff NOT (`len(address) != 17 or address.count(":") != 5`);
otherwise the `invalid_address` error is reported and the form is shown
again. (The duplicate-unique-id abort concerns already-configured devices,
not address format, and is outside this predicate.) -/
def async_step_manual_creates_entry (input : List Char) : Bool :=
  if (py_upper (py_strip input)).length ≠ 17 ∨
      (py_upper (py_strip input)).count ':' ≠ 5 then
    false
  else
    true

/-- A hexadecimal digit character: `0`-`9`, `A`-`F` or `a`-`f`. -/
def isHexChar (c : Char) : Bool :=
  c.isDigit || ('A' ≤ c && c ≤ 'F') || ('a' ≤ c && c ≤ 'f')

/-- Modelled from the spec: a valid MAC-like device address, "six
colon-separated hex octets" — seventeen characters, the third of every
group of three a colon, the rest hexadecimal digits. The source's
configuration layer has no such full validator; this definition exists
only to compare the spec's wording with the source's check. -/
def is_valid_mac (s : List Char) : Bool :=
  match s with
  | [a1, a2, s1, b1, b2, s2, c1, c2, s3, d1, d2, s4, e1, e2, s5, f1, f2] =>
      isHexChar a1 && isHexChar a2 && s1 == ':' &&
      isHexChar b1 && isHexChar b2 && s2 == ':' &&
      isHexChar c1 && isHexChar c2 && s3 == ':' &&
      isHexChar d1 && isHexChar d2 && s4 == ':' &&
      isHexChar e1 && isHexChar e2 && s5 == ':' &&
      isHexChar f1 && isHexChar f2
  | _ => false

/-! ## Concrete fixtures for witnesses and counterexamples -/

/-- A well-formed status-on notification `78 02 01 01 7C`. -/
def statusOnFrame : List Nat := [0x78, 0x02, 0x01, 0x01, 0x7C]

/-- A well-formed status-off notification `78 02 01 02 7D`. -/
def statusOffFrame : List Nat := [0x78, 0x02, 0x01, 0x02, 0x7D]

/-- A notification with the status tag and sufficient length but an
unrecognized state byte `0x03`. -/
def badStateFrame : List Nat := [0x78, 0x02, 0x01, 0x03, 0x7E]

/-- A transport whose connect call raises a transport error. -/
def tConnFail : Transport := ⟨false, true, true, [], true, true⟩

/-- A transport that confirms ON during the wait, with everything succeeding. -/
def tConfirmOn : Transport := ⟨true, true, true, [statusOnFrame], true, true⟩

/-- A transport that confirms OFF during the wait, with everything succeeding. -/
def tConfirmOff : Transport := ⟨true, true, true, [statusOffFrame], true, true⟩

/-- A transport that confirms ON during the wait but whose `stop_notify`
call then raises a transport error. -/
def tLateError : Transport := ⟨true, true, true, [statusOnFrame], false, true⟩

/-- A sample light entity. -/
def lightA : NeewerGL1ProLight := initLight "AA:BB:CC:DD:EE:FF".toList

/-- Fixture: `"GG:GG:GG:GG:GG:GG"` — 17 characters and five colons, but the
octets are not hexadecimal. -/
def addrGG : List Char := "GG:GG:GG:GG:GG:GG".toList

/-- Fixture: `" aa:bb:cc:dd:ee:ff "` — a valid MAC once stripped and
uppercased. -/
def addrAA : List Char := " aa:bb:cc:dd:ee:ff ".toList

/-! ## Helper lemmas -/

/-- A decodable notification overwrites the closure state with its decoded
boolean and sets the event, regardless of the prior state. -/
lemma on_notify_of_decode_some (s : NotifyState) (d : List Nat) (b : Bool)
    (h : decode_status d = some b) :
    on_notify s d = { result := some b, eventSet := true } := by
  unfold decode_status at h
  unfold on_notify
  by_cases hc : 4 ≤ d.length ∧ d.getD 1 0 = STATUS_TAG
  · rw [if_pos hc] at h ⊢
    by_cases h1 : d.getD 3 0 = STATUS_ON
    · rw [if_pos h1] at h ⊢
      simp only [Option.some.injEq] at h
      rw [← h]
    · rw [if_neg h1] at h ⊢
      by_cases h2 : d.getD 3 0 = STATUS_OFF
      · rw [if_pos h2] at h ⊢
        simp only [Option.some.injEq] at h
        rw [← h]
      · rw [if_neg h2] at h
        exact absurd h (by simp)
  · rw [if_neg hc] at h
    exact absurd h (by simp)

/-- A hexadecimal digit is never a colon. -/
lemma hex_ne_colon {c : Char} (h : isHexChar c = true) : c ≠ ':' := by
  intro he
  subst he
  exact absurd h (by decide)

/-- A valid MAC in the spec's sense has 17 characters and exactly five
colons, so it passes the source's length-and-colon-count check. -/
lemma valid_mac_length_count (s : List Char) (h : is_valid_mac s = true) :
    s.length = 17 ∧ s.count ':' = 5 := by
  unfold is_valid_mac at h
  split at h
  · rename_i a1 a2 s1 b1 b2 s2 c1 c2 s3 d1 d2 s4 e1 e2 s5 f1 f2
    simp only [Bool.and_eq_true, beq_iff_eq] at h
    obtain ⟨⟨⟨⟨⟨⟨⟨⟨⟨⟨⟨⟨⟨⟨⟨⟨ha1, ha2⟩, hs1⟩, hb1⟩, hb2⟩, hs2⟩, hc1⟩, hc2⟩,
      hs3⟩, hd1⟩, hd2⟩, hs4⟩, he1⟩, he2⟩, hs5⟩, hf1⟩, hf2⟩ := h
    subst hs1 hs2 hs3 hs4 hs5
    refine ⟨rfl, ?_⟩
    have na1 : (a1 == ':') = false := beq_eq_false_iff_ne.mpr (hex_ne_colon ha1)
    have na2 : (a2 == ':') = false := beq_eq_false_iff_ne.mpr (hex_ne_colon ha2)
    have nb1 : (b1 == ':') = false := beq_eq_false_iff_ne.mpr (hex_ne_colon hb1)
    have nb2 : (b2 == ':') = false := beq_eq_false_iff_ne.mpr (hex_ne_colon hb2)
    have nc1 : (c1 == ':') = false := beq_eq_false_iff_ne.mpr (hex_ne_colon hc1)
    have nc2 : (c2 == ':') = false := beq_eq_false_iff_ne.mpr (hex_ne_colon hc2)
    have nd1 : (d1 == ':') = false := beq_eq_false_iff_ne.mpr (hex_ne_colon hd1)
    have nd2 : (d2 == ':') = false := beq_eq_false_iff_ne.mpr (hex_ne_colon hd2)
    have ne1 : (e1 == ':') = false := beq_eq_false_iff_ne.mpr (hex_ne_colon he1)
    have ne2 : (e2 == ':') = false := beq_eq_false_iff_ne.mpr (hex_ne_colon he2)
    have nf1 : (f1 == ':') = false := beq_eq_false_iff_ne.mpr (hex_ne_colon hf1)
    have nf2 : (f2 == ':') = false := beq_eq_false_iff_ne.mpr (hex_ne_colon hf2)
    simp [List.count_cons, List.count_nil, na1, na2, nb1, nb2, nc1, nc2,
      nd1, nd2, ne1, ne2, nf1, nf2]
  · exact absurd h (by simp)

/-! ## Claim theorems -/

/-- C7: the pre-encoded power-on command is `78 81 01 01 FB`, the power-off
command is `78 81 01 02 FC`, and for each the last byte equals the sum of
all preceding bytes modulo 256. -/
theorem power_command_bytes_and_checksum :
    POWER_ON_COMMAND = [0x78, 0x81, 0x01, 0x01, 0xFB] ∧
    POWER_OFF_COMMAND = [0x78, 0x81, 0x01, 0x02, 0xFC] ∧
    POWER_ON_COMMAND.getLast? = some (POWER_ON_COMMAND.dropLast.sum % 256) ∧
    POWER_OFF_COMMAND.getLast? = some (POWER_OFF_COMMAND.dropLast.sum % 256) := by
  decide

/-- C4: decoding a status notification yields a parsed on/off state iff the
input has at least 4 bytes, byte 1 equals `STATUS_TAG`, and byte 3 is
`STATUS_ON` or `STATUS_OFF`; `STATUS_ON` maps to on, `STATUS_OFF` to off;
everything else yields no result. -/
theorem decode_status_characterization (raw : List Nat) :
    (decode_status raw = some true ↔
      4 ≤ raw.length ∧ raw.getD 1 0 = STATUS_TAG ∧ raw.getD 3 0 = STATUS_ON) ∧
    (decode_status raw = some false ↔
      4 ≤ raw.length ∧ raw.getD 1 0 = STATUS_TAG ∧ raw.getD 3 0 = STATUS_OFF) ∧
    (decode_status raw = none ↔
      ¬ (4 ≤ raw.length ∧ raw.getD 1 0 = STATUS_TAG ∧
        (raw.getD 3 0 = STATUS_ON ∨ raw.getD 3 0 = STATUS_OFF))) := by
  unfold decode_status
  by_cases hc : 4 ≤ raw.length ∧ raw.getD 1 0 = STATUS_TAG
  · obtain ⟨hl, ht⟩ := hc
    rw [if_pos ⟨hl, ht⟩]
    by_cases h1 : raw.getD 3 0 = STATUS_ON
    · rw [if_pos h1]
      refine ⟨⟨fun _ => ⟨hl, ht, h1⟩, fun _ => rfl⟩, ⟨?_, ?_⟩, ⟨?_, ?_⟩⟩
      · intro h; exact absurd h (by simp)
      · intro h
        have h2 := h.2.2
        rw [h1] at h2
        exact absurd h2 (by decide)
      · intro h; exact absurd h (by simp)
      · intro hn; exact absurd ⟨hl, ht, Or.inl h1⟩ hn
    · rw [if_neg h1]
      by_cases h2 : raw.getD 3 0 = STATUS_OFF
      · rw [if_pos h2]
        refine ⟨⟨?_, ?_⟩, ⟨fun _ => ⟨hl, ht, h2⟩, fun _ => rfl⟩, ⟨?_, ?_⟩⟩
        · intro h; exact absurd h (by simp)
        · intro h; exact absurd h.2.2 h1
        · intro h; exact absurd h (by simp)
        · intro hn; exact absurd ⟨hl, ht, Or.inr h2⟩ hn
      · rw [if_neg h2]
        refine ⟨⟨?_, ?_⟩, ⟨?_, ?_⟩, fun _ => ?_, fun _ => rfl⟩
        · intro h; exact absurd h (by simp)
        · intro h; exact absurd h.2.2 h1
        · intro h; exact absurd h (by simp)
        · intro h; exact absurd h.2.2 h2
        · intro h
          rcases h.2.2 with h3 | h3
          · exact h1 h3
          · exact h2 h3
  · rw [if_neg hc]
    rw [not_and] at hc
    refine ⟨⟨?_, ?_⟩, ⟨?_, ?_⟩, fun _ => ?_, fun _ => rfl⟩
    · intro h; exact absurd h (by simp)
    · intro h; exact absurd h.2.1 (hc h.1)
    · intro h; exact absurd h (by simp)
    · intro h; exact absurd h.2.1 (hc h.1)
    · intro h; exact absurd h.2.1 (hc h.1)

/-- C2 counterexample: a 4-byte-plus notification with the status tag but
with state byte `0x03` is not ignored — `status_event.set()` runs (the
wait is resolved) even though no boolean is recorded, contradicting the
claim that such a notification leaves the wait pending. -/
theorem bad_state_byte_resolves_wait :
    decode_status badStateFrame = none ∧
    (on_notify ⟨none, false⟩ badStateFrame).eventSet = true ∧
    on_notify ⟨none, false⟩ badStateFrame ≠ ⟨none, false⟩ := by
  decide

/-- C2 amended: a notification shorter than 4 bytes or with the wrong tag
byte is silently ignored (the closure state is unchanged, so the wait
continues); but a notification with sufficient length and the status tag
whose state byte is outside `{STATUS_ON, STATUS_OFF}` resolves the wait
(sets the event) while leaving the recorded boolean unchanged. -/
theorem malformed_notification_handling (s : NotifyState) (data : List Nat) :
    (¬ (4 ≤ data.length ∧ data.getD 1 0 = STATUS_TAG) → on_notify s data = s) ∧
    (4 ≤ data.length → data.getD 1 0 = STATUS_TAG →
      data.getD 3 0 ≠ STATUS_ON → data.getD 3 0 ≠ STATUS_OFF →
      on_notify s data = { result := s.result, eventSet := true }) := by
  constructor
  · intro h
    unfold on_notify
    rw [if_neg h]
  · intro hl ht h1 h2
    unfold on_notify
    rw [if_pos ⟨hl, ht⟩, if_neg h1, if_neg h2]

/-- C2 witness: a wrong-tag notification leaves the state untouched, and a
bad-state notification with the right tag only sets the event. -/
theorem malformed_notification_handling_app :
    on_notify ⟨some true, true⟩ [0x78, 0x81, 0x01, 0x01] = ⟨some true, true⟩ ∧
    on_notify ⟨none, false⟩ badStateFrame = ⟨none, true⟩ :=
  ⟨(malformed_notification_handling ⟨some true, true⟩ [0x78, 0x81, 0x01, 0x01]).1
      (by decide),
   (malformed_notification_handling ⟨none, false⟩ badStateFrame).2
      (by decide) (by decide) (by decide) (by decide)⟩

/-- C3 counterexample: the first notification resolves the wait and records
`some true`, yet a second decodable notification arriving during the same
wait overwrites the recorded boolean with `some false` — subsequent
notifications are not ignored; first decode does not win. -/
theorem second_notification_overwrites_result :
    (on_notify ⟨none, false⟩ statusOnFrame).eventSet = true ∧
    (on_notify ⟨none, false⟩ statusOnFrame).result = some true ∧
    (process_notifications ⟨none, false⟩ [statusOnFrame, statusOffFrame]).result
      = some false := by
  decide

/-- C3 amended: within one wait, the last decodable notification wins:
whatever came before, if the final delivered notification decodes to `b`,
the recorded boolean is `b` and the event is set. -/
theorem last_decode_wins (s : NotifyState) (pre : List (List Nat))
    (d : List Nat) (b : Bool) (h : decode_status d = some b) :
    process_notifications s (pre ++ [d]) = { result := some b, eventSet := true } := by
  unfold process_notifications
  rw [List.foldl_append]
  simp only [List.foldl_cons, List.foldl_nil]
  exact on_notify_of_decode_some _ d b h

/-- C3 amended witness: with an on-frame then an off-frame, the recorded
boolean is the last decode, `some false`. -/
theorem last_decode_wins_app :
    process_notifications ⟨none, false⟩ [statusOnFrame, statusOffFrame]
      = ⟨some false, true⟩ :=
  last_decode_wins ⟨none, false⟩ [statusOnFrame] statusOffFrame false (by decide)

/-- C1: `async_turn_on` adopts the confirmed boolean when `_send_command`
returns one and otherwise assumes ON; `async_turn_off` adopts the confirmed
boolean and otherwise assumes OFF: the recorded state equals the confirmed
value when one exists, else the commanded value. -/
theorem turn_on_off_adopts_confirmed_else_commanded
    (l : NeewerGL1ProLight) (t : Transport) :
    (∀ b, (send_command t POWER_ON_COMMAND).result = some b →
      (async_turn_on l t).is_on = b) ∧
    ((send_command t POWER_ON_COMMAND).result = none →
      (async_turn_on l t).is_on = true) ∧
    (∀ b, (send_command t POWER_OFF_COMMAND).result = some b →
      (async_turn_off l t).is_on = b) ∧
    ((send_command t POWER_OFF_COMMAND).result = none →
      (async_turn_off l t).is_on = false) := by
  refine ⟨?_, ?_, ?_, ?_⟩
  · intro b h; simp [async_turn_on, h]
  · intro h; simp [async_turn_on, h]
  · intro b h; simp [async_turn_off, h]
  · intro h; simp [async_turn_off, h]

/-- C1 witness: confirmed exchanges adopt the confirmation; failed
exchanges assume the commanded state. -/
theorem turn_on_off_adopts_confirmed_else_commanded_app :
    (async_turn_on lightA tConfirmOn).is_on = true ∧
    (async_turn_on lightA tConnFail).is_on = true ∧
    (async_turn_off lightA tConfirmOff).is_on = false ∧
    (async_turn_off lightA tConnFail).is_on = false :=
  ⟨(turn_on_off_adopts_confirmed_else_commanded lightA tConfirmOn).1 true (by decide),
   (turn_on_off_adopts_confirmed_else_commanded lightA tConnFail).2.1 (by decide),
   (turn_on_off_adopts_confirmed_else_commanded lightA tConfirmOff).2.2.1 false
      (by decide),
   (turn_on_off_adopts_confirmed_else_commanded lightA tConnFail).2.2.2 (by decide)⟩

/-- C5 counterexample: when the connect call itself fails, the inner
`try/finally` is never entered and `disconnect` is invoked zero times —
not exactly once on every exit path as claimed. -/
theorem connect_failure_skips_disconnect :
    tConnFail.connect_ok = false ∧
    (send_command tConnFail POWER_ON_COMMAND).disconnect_count = 0 := by
  decide

/-- C5 amended: `disconnect` is invoked exactly once whenever connect
succeeds — on success, on timeout, and when subscribe, write, stop-notify
or disconnect itself fails — and zero times when connect itself fails
(no transport was ever acquired, so no path leaves one connected). -/
theorem disconnect_once_iff_connect_succeeded (t : Transport) (cmd : List Nat) :
    (send_command t cmd).disconnect_count = if t.connect_ok then 1 else 0 := by
  obtain ⟨c, sn, w, ns, st, dc⟩ := t
  cases c <;> cases sn <;> cases w <;> cases st <;> cases dc <;> rfl

/-- C6 counterexample: with a transport whose `stop_notify` raises after a
status-on confirmation was already recorded, the transport error is not
converted into a no-confirmation result: `_send_command` returns the
confirmation, and `async_turn_off` ends in state ON rather than the
commanded OFF. -/
theorem late_error_keeps_confirmation :
    tLateError.stop_notify_ok = false ∧
    (send_command tLateError POWER_OFF_COMMAND).result = some true ∧
    (async_turn_off lightA tLateError).is_on = true := by
  decide

/-- C6 amended: no transport error escapes `_send_command` (its outcome is
total); an error in connect, subscribe or write — i.e. before any
confirmation could be recorded — yields a no-confirmation result, and on a
connect error `async_turn_on` ends ON and `async_turn_off` ends OFF (the
commanded state); an error raised after the wait (in stop-notify or
disconnect) leaves whatever the notifications recorded as the result. -/
theorem transport_error_no_escape (l : NeewerGL1ProLight) (t : Transport)
    (cmd : List Nat) :
    ((t.connect_ok = false ∨ t.start_notify_ok = false ∨ t.write_ok = false) →
      (send_command t cmd).result = none) ∧
    (t.connect_ok = false →
      (async_turn_on l t).is_on = true ∧ (async_turn_off l t).is_on = false) ∧
    (t.connect_ok = true → t.start_notify_ok = true → t.write_ok = true →
      (send_command t cmd).result =
        (process_notifications ⟨none, false⟩ t.notifications).result) := by
  obtain ⟨c, sn, w, ns, st, dc⟩ := t
  cases c <;> cases sn <;> cases w <;> cases st <;> cases dc <;>
    simp [send_command, async_turn_on, async_turn_off]

/-- C6 witness: a connect failure yields no confirmation and the commanded
state on both commands; a late stop-notify failure leaves the notifications'
result in place. -/
theorem transport_error_no_escape_app :
    (send_command tConnFail POWER_ON_COMMAND).result = none ∧
    (async_turn_on lightA tConnFail).is_on = true ∧
    (async_turn_off lightA tConnFail).is_on = false ∧
    (send_command tLateError POWER_OFF_COMMAND).result =
      (process_notifications ⟨none, false⟩ tLateError.notifications).result :=
  ⟨(transport_error_no_escape lightA tConnFail POWER_ON_COMMAND).1
      (Or.inl (by decide)),
   ((transport_error_no_escape lightA tConnFail POWER_ON_COMMAND).2.1 (by decide)).1,
   ((transport_error_no_escape lightA tConnFail POWER_ON_COMMAND).2.1 (by decide)).2,
   (transport_error_no_escape lightA tLateError POWER_OFF_COMMAND).2.2
      (by decide) (by decide) (by decide)⟩

/-- C8: `_connect` tries the two strategies in a fixed order, first
applicable wins: a cache hit connects through the cached handle, a cache
miss connects directly by address, and every connection is one of exactly
these two. -/
theorem connect_cache_first_then_direct (cache : Option BLEDevice)
    (address : List Char) :
    (∀ d, cache = some d → _connect cache address = Connection.viaCache d) ∧
    (cache = none → _connect cache address = Connection.direct address) ∧
    ((∃ d, cache = some d ∧ _connect cache address = Connection.viaCache d) ∨
      (cache = none ∧ _connect cache address = Connection.direct address)) := by
  refine ⟨?_, ?_, ?_⟩
  · intro d h; subst h; rfl
  · intro h; subst h; rfl
  · cases cache with
    | some d => exact Or.inl ⟨d, rfl, rfl⟩
    | none => exact Or.inr ⟨rfl, rfl⟩

/-- C8 witness: a concrete cache hit goes through the cached handle and a
concrete cache miss connects directly. -/
theorem connect_cache_first_then_direct_app :
    _connect (some ⟨7⟩) lightA.address = Connection.viaCache ⟨7⟩ ∧
    _connect none lightA.address = Connection.direct lightA.address :=
  ⟨(connect_cache_first_then_direct (some ⟨7⟩) lightA.address).1 ⟨7⟩ rfl,
   (connect_cache_first_then_direct none lightA.address).2.1 rfl⟩

/-- C9 counterexample: `"GG:GG:GG:GG:GG:GG"` is not six colon-separated hex
octets, yet the manual step accepts it and creates an entry — the check is
not equivalent to MAC validity. -/
theorem non_hex_address_accepted :
    async_step_manual_creates_entry addrGG = true ∧
    is_valid_mac (py_upper (py_strip addrGG)) = false := by
  decide

/-- C9 amended: the manual step creates an entry iff the stripped and
uppercased input has exactly 17 characters and exactly five colons — a
strictly weaker test than hex-octet validity — and in particular every
valid MAC-like address is accepted. -/
theorem manual_entry_iff_length_and_colons (input : List Char) :
    (async_step_manual_creates_entry input = true ↔
      (py_upper (py_strip input)).length = 17 ∧
      (py_upper (py_strip input)).count ':' = 5) ∧
    (is_valid_mac (py_upper (py_strip input)) = true →
      async_step_manual_creates_entry input = true) := by
  have hmain : async_step_manual_creates_entry input = true ↔
      (py_upper (py_strip input)).length = 17 ∧
      (py_upper (py_strip input)).count ':' = 5 := by
    unfold async_step_manual_creates_entry
    by_cases hcond : (py_upper (py_strip input)).length ≠ 17 ∨
        (py_upper (py_strip input)).count ':' ≠ 5
    · rw [if_pos hcond]
      constructor
      · intro h; exact absurd h (by simp)
      · intro h
        rcases hcond with hbad | hbad
        · exact absurd h.1 hbad
        · exact absurd h.2 hbad
    · rw [if_neg hcond]
      rw [not_or, not_not, not_not] at hcond
      exact ⟨fun _ => hcond, fun _ => rfl⟩
  refine ⟨hmain, ?_⟩
  intro h
  exact hmain.mpr (valid_mac_length_count _ h)

/-- C9 amended witness: a valid MAC (after stripping and uppercasing) is
accepted by the manual step. -/
theorem manual_entry_iff_length_and_colons_app :
    async_step_manual_creates_entry addrAA = true :=
  (manual_entry_iff_length_and_colons addrAA).2 (by decide)

/-- C10: a freshly constructed light starts with `_attr_is_on = False`, and
its unique id is the address of the same length with every colon replaced
by an underscore and every other character kept. -/
theorem init_off_and_unique_id (address : List Char) :
    (initLight address).is_on = false ∧
    (initLight address).unique_id.length = address.length ∧
    (∀ i : Nat, ∀ c : Char, address[i]? = some c →
      (initLight address).unique_id[i]? = some (if c = ':' then '_' else c)) := by
  refine ⟨rfl, by simp [initLight], ?_⟩
  intro i c h
  simp [initLight, List.getElem?_map, h]

/-- C10 witness: the sample address starts OFF and maps its colon at
index 2 to an underscore while keeping the letter at index 0. -/
theorem init_off_and_unique_id_app :
    (initLight "AA:BB:CC:DD:EE:FF".toList).is_on = false ∧
    (initLight "AA:BB:CC:DD:EE:FF".toList).unique_id[2]? = some '_' ∧
    (initLight "AA:BB:CC:DD:EE:FF".toList).unique_id[0]? = some 'A' :=
  ⟨(init_off_and_unique_id "AA:BB:CC:DD:EE:FF".toList).1,
   by
     have h2 := (init_off_and_unique_id "AA:BB:CC:DD:EE:FF".toList).2.2 2 ':'
       (by decide)
     simpa using h2,
   by
     have h0 := (init_off_and_unique_id "AA:BB:CC:DD:EE:FF".toList).2.2 0 'A'
       (by decide)
     simpa using h0⟩
